import Mathlib

/-!
Verification of the yield-server normalization pipeline.

Shallow embedding of four adapters:
  * the kinetiq-khype adapter (sKNTQ / kHYPE pools, linear 1d/7d annualization),
  * the gaib adapter (sAID vault, exponential 30d NAV annualization),
  * the aera-v2 adapter (per-vault TVL/metrics pipeline),
  * the usual-eur0 adapter (reward-APR driven record).

Numeric model: BigNumber / exact arithmetic is embedded as the rational numbers;
the gaib adapter's fractional exponentiation is embedded over the real numbers
with real exponents.  JavaScript numbers, where their non-finite values matter
(isFinite checks in output filters), are embedded as the sum type JSNum below.
Asynchronous collaborator calls that can reject are embedded as Except-valued
inputs; a rejected promise is an error value.
-/

set_option maxHeartbeats 1000000

/-- A JavaScript number as seen by output filters: either a finite value
(idealized as an exact rational) or one of the non-finite values NaN,
Infinity, -Infinity. -/
inductive JSNum where
  | fin : ℚ → JSNum
  | nan : JSNum
  | inf : JSNum
  | neginf : JSNum
  deriving DecidableEq, Repr

/-- JavaScript isFinite: true exactly on finite numbers. -/
def JSNum.isFinite : JSNum → Bool
  | .fin _ => true
  | _ => false

/-- The JavaScript comparison x > 0 on a JSNum: false on NaN and -Infinity,
true on Infinity, and the rational comparison on finite values. -/
def JSNum.gtZero : JSNum → Bool
  | .fin q => decide (0 < q)
  | .nan => false
  | .inf => true
  | .neginf => false

/-- Decidable equality of Except values with decidable components. -/
instance {ε α : Type} [DecidableEq ε] [DecidableEq α] :
    DecidableEq (Except ε α) := fun a b =>
  match a, b with
  | .error e₁, .error e₂ =>
    if h : e₁ = e₂ then .isTrue (by rw [h])
    else .isFalse (by intro hc; cases hc; exact h rfl)
  | .error _, .ok _ => .isFalse (by intro hc; cases hc)
  | .ok _, .error _ => .isFalse (by intro hc; cases hc)
  | .ok v₁, .ok v₂ =>
    if h : v₁ = v₂ then .isTrue (by rw [h])
    else .isFalse (by intro hc; cases hc; exact h rfl)

/-! ## kinetiq-khype adapter (unnamed part_001)

Source constants and per-pool computations.  The four sdk.api.abi.call
results of each pool's Promise.all are an Except-valued input (a rejected
RPC call is an error); BigNumber arithmetic is exact rational arithmetic.
-/

/-- Source constant: chain = 'hyperliquid'. -/
def kinetiqChain : String := "hyperliquid"

/-- Source constant: project. -/
def kinetiqProject : String := "kinetiq-khype"

/-- Source constant: sKNTQ token address. -/
def skntq : String := "0x696238e0Ca31c94e24ca4CBe7921754E172E4d0F"

/-- Source constant: KNTQ token address. -/
def kntq : String := "0x000000000000780555bD0BCA3791f89f9542c2d6"

/-- Source constant: kHYPE token address. -/
def khype : String := "0xfD739d4e423301CE9385c1fb8850539D657C296D"

/-- Source constant: WHYPE token address. -/
def whype : String := "0x5555555555555555555555555555555555555555"

/-- The 1-day linear annualization of part_001 (both pools):
p1d.isZero() ? 0 : curr.minus(p1d).div(p1d).times(365).times(100). -/
def kinetiqApyBase (curr p1d : ℚ) : ℚ :=
  if p1d = 0 then 0 else (curr - p1d) / p1d * 365 * 100

/-- The 7-day linear annualization of part_001 (both pools):
p7d.isZero() ? 0 : curr.minus(p7d).div(p7d).div(7).times(365).times(100). -/
def kinetiqApyBase7d (curr p7d : ℚ) : ℚ :=
  if p7d = 0 then 0 else (curr - p7d) / p7d / 7 * 365 * 100

/-- The pool record shape returned by getSkntqPool / getKhypePool.
Numeric fields are JSNum (the values BigNumber.toNumber() produced, as seen
by the final isFinite filter). -/
structure KinetiqPool where
  pool : String
  chain : String
  project : String
  symbol : String
  underlyingTokens : List String
  searchTokenOverride : String
  apyBase : JSNum
  apyBase7d : JSNum
  tvlUsd : JSNum
  url : String
  deriving DecidableEq, Repr

/-- getSkntqPool: consumes the four contract-call outputs
(rateNow, rate1d, rate7d, totalAssets) and the KNTQ price.  A rejection of
any of the joined calls rejects the whole pool computation. -/
def getSkntqPool (calls : Except String (ℚ × ℚ × ℚ × ℚ)) (kntqPrice : ℚ) :
    Except String KinetiqPool :=
  match calls with
  | .error e => .error e
  | .ok (rateNow, rate1d, rate7d, totalAssets) => .ok {
    pool := skntq ++ "-" ++ kinetiqChain
    chain := kinetiqChain
    project := kinetiqProject
    symbol := "sKNTQ"
    underlyingTokens := [kntq]
    searchTokenOverride := skntq
    apyBase := .fin (kinetiqApyBase rateNow rate1d)
    apyBase7d := .fin (kinetiqApyBase7d rateNow rate7d)
    tvlUsd := .fin (totalAssets / 10 ^ 18 * kntqPrice)
    url := "https://kinetiq.xyz/kntq" }

/-- getKhypePool: consumes (rateNow, rate1d, rate7d, totalSupply) and the
HYPE price; TVL = totalSupply / 1e18 * rateNow / 1e18 * hypePrice. -/
def getKhypePool (calls : Except String (ℚ × ℚ × ℚ × ℚ)) (hypePrice : ℚ) :
    Except String KinetiqPool :=
  match calls with
  | .error e => .error e
  | .ok (rateNow, rate1d, rate7d, totalSupply) => .ok {
    pool := khype ++ "-" ++ kinetiqChain
    chain := kinetiqChain
    project := kinetiqProject
    symbol := "kHYPE"
    underlyingTokens := [whype]
    searchTokenOverride := khype
    apyBase := .fin (kinetiqApyBase rateNow rate1d)
    apyBase7d := .fin (kinetiqApyBase7d rateNow rate7d)
    tvlUsd := .fin (totalSupply / 10 ^ 18 * rateNow / 10 ^ 18 * hypePrice)
    url := "https://kinetiq.xyz/stake-hype" }

/-- The output filter of part_001 line 194-196:
(p) => p.tvlUsd > 0 && isFinite(p.apyBase) && isFinite(p.tvlUsd). -/
def kinetiqKeep (p : KinetiqPool) : Bool :=
  p.tvlUsd.gtZero && p.apyBase.isFinite && p.tvlUsd.isFinite

/-- Upstream inputs of one kinetiq apy() run: the two prices as the API
reported them (absent, or an arbitrary JS number), the two resolved block
heights, and the outcome of each pool's joined contract calls. -/
structure KinetiqInputs where
  kntqPrice : Option JSNum
  hypePrice : Option JSNum
  block1d : Option Nat
  block7d : Option Nat
  skntqCalls : Except String (ℚ × ℚ × ℚ × ℚ)
  khypeCalls : Except String (ℚ × ℚ × ℚ × ℚ)

/-- Source constant: kntqPriceKey used in the missing-price error message. -/
def kntqPriceKey : String := kinetiqChain ++ ":" ++ kntq

/-- Source constant: hypePriceKey used in the missing-price error message. -/
def hypePriceKey : String := "coingecko:hyperliquid"

/-- The apy() entry point of part_001: validates prices and block heights
(throwing on a missing or non-finite price and on a missing block), then
joins both pool computations with Promise.all (either rejection rejects the
whole invocation) and filters the resulting pair of records. -/
def kinetiqApy (i : KinetiqInputs) : Except String (List KinetiqPool) :=
  match i.kntqPrice with
  | some (.fin kp) =>
    match i.hypePrice with
    | some (.fin hp) =>
      if i.block1d = none ∨ i.block7d = none then
        .error ("Missing block height for " ++ kinetiqChain)
      else
        match getSkntqPool i.skntqCalls kp with
        | .error e => .error e
        | .ok s =>
          match getKhypePool i.khypeCalls hp with
          | .error e => .error e
          | .ok k => .ok (([s, k]).filter kinetiqKeep)
    | _ => .error ("Missing price for " ++ hypePriceKey)
  | _ => .error ("Missing price for " ++ kntqPriceKey)

/-! ## Shared adapter utilities (src/adaptors/utils, not included in src/)

These collaborators are required by the adapters but their file is not part
of the provided sources; they are modelled from the specification. -/

/-- Modelled from the spec: utils.formatChain (not in src/) — produces the
canonical chain name with normalized spelling; modelled as capitalizing the
first letter of the lower-case chain name. -/
def formatChain (s : String) : String :=
  match s.data with
  | [] => s
  | c :: cs => ⟨Char.toUpper c :: cs⟩

/-- Modelled from the spec: utils.formatSymbol (not in src/) — produces a
normalized human-readable asset label; modelled as trimming surrounding
whitespace (the identity on already-clean symbols). -/
def formatSymbol (s : String) : String :=
  ⟨((s.data.dropWhile (fun c => c = ' ')).reverse.dropWhile
      (fun c => c = ' ')).reverse⟩

/-- Modelled from the spec: utils.aprToApy (not in src/) — converts a
simple annual percentage rate to an annual percentage yield under n-period
compounding: ((1 + apr / 100 / n) ^ n - 1) * 100. -/
def aprToApy (apr : ℚ) (n : ℕ) : ℚ := ((1 + apr / 100 / n) ^ n - 1) * 100

/-! ## gaib adapter (unnamed part_002, first document)

The sAID ERC-4626 vault adapter.  Contract-call outputs after the
JavaScript Number() conversion are embedded as real numbers; the
fractional-exponent annualization uses real exponentiation. -/

/-- Source constant: SAID_VAULT address. -/
def SAID_VAULT : String := "0xB3B3c527BA57cd61648e2EC2F5e006A0B390A9F8"

/-- Source constant: AID_TOKEN address. -/
def AID_TOKEN : String := "0x18F52B3fb465118731d9e0d276d4Eb3599D57596"

/-- Source constant: APY_LOOKBACK_DAYS = 30. -/
def APY_LOOKBACK_DAYS : ℝ := 30

/-- JavaScript String.prototype.toLowerCase, character-wise. -/
def jsToLowerCase (s : String) : String := ⟨s.data.map Char.toLower⟩

/-- The gaib exponential annualizer of part_002 lines 73-76:
navNow > 0 && nav30d > 0 ? ((navNow / nav30d) ** (365.25 / 30) - 1) * 100 : 0. -/
noncomputable def gaibApyBase (navNow nav30d : ℝ) : ℝ :=
  if 0 < navNow ∧ 0 < nav30d then
    ((navNow / nav30d) ^ ((365.25 : ℝ) / APY_LOOKBACK_DAYS) - 1) * 100
  else 0

/-- The record shape returned by the gaib poolsFunction. -/
structure GaibPool where
  pool : String
  chain : String
  project : String
  symbol : String
  tvlUsd : ℝ
  apyBase : ℝ
  underlyingTokens : List String
  poolMeta : Option String

/-- Upstream inputs of one gaib poolsFunction run: the five contract-call
outputs after Number(), and the price map returned by the price
collaborator (keyed by lower-cased address). -/
structure GaibInputs where
  totalAssetsNow : ℝ
  totalSupplyNow : ℝ
  totalAssets30d : ℝ
  totalSupply30d : ℝ
  assetDecimals : ℕ
  prices : String → Option ℝ

/-- The gaib poolsFunction: computes tvlUsd from totalAssets, decimals and
the (possibly missing, defaulted to 0) asset price, computes the share-price
NAV now and 30 days ago guarded by zero total supply, annualizes
exponentially, and returns the single record unconditionally — no
finiteness or zero-TVL filter is applied. -/
noncomputable def gaibPoolsFunction (i : GaibInputs) : List GaibPool :=
  let assetPrice : ℝ := (i.prices (jsToLowerCase AID_TOKEN)).getD 0
  let tvlUsd : ℝ := i.totalAssetsNow / 10 ^ i.assetDecimals * assetPrice
  let navNow : ℝ :=
    if 0 < i.totalSupplyNow then i.totalAssetsNow / i.totalSupplyNow else 0
  let nav30d : ℝ :=
    if 0 < i.totalSupply30d then i.totalAssets30d / i.totalSupply30d else 0
  [{ pool := jsToLowerCase (SAID_VAULT ++ "-ethereum")
     chain := formatChain "ethereum"
     project := "gaib"
     symbol := formatSymbol "sAID"
     tvlUsd := tvlUsd
     apyBase := gaibApyBase navNow nav30d
     underlyingTokens := [AID_TOKEN]
     poolMeta := some "30d withdrawal cycle" }]

/-! ## aera-v2 adapter (src/adaptors/aera-v2/index.js)

Each helper catches internally, so a collaborator failure degrades to a
default (tvlUsd 0, symbol MULTI, no underlying tokens, apyBase null) and
the per-vault loop body of main additionally guards with try/catch; a vault
with tvlUsd <= 0 is skipped. -/

/-- A vault object as returned by the Aera vault-list API. -/
structure AeraVault where
  vault_address : String
  chain_id : ℕ
  aera_version : Option String
  vault_type : Option String
  deriving DecidableEq, Repr

/-- Source table CHAIN_MAP: chain id to chain name. -/
def CHAIN_MAP (id : ℕ) : Option String :=
  if id = 1 then some "ethereum"
  else if id = 10 then some "optimism"
  else if id = 137 then some "polygon"
  else if id = 8453 then some "base"
  else if id = 42161 then some "arbitrum"
  else none

/-- Source table CHAIN_SLUG_MAP: chain id to URL slug. -/
def CHAIN_SLUG_MAP (id : ℕ) : Option String :=
  if id = 1 then some "eth"
  else if id = 10 then some "op"
  else if id = 137 then some "polygon"
  else if id = 8453 then some "base"
  else if id = 42161 then some "arb"
  else none

/-- Source constant TESTNET_CHAINS (Holesky). -/
def TESTNET_CHAINS : List ℕ := [17000]

/-- The fetchVaults filter: drop testnet vaults, vaults on unmapped chains,
and v3 vaults. -/
def fetchVaultsFilter (vaults : List AeraVault) : List AeraVault :=
  vaults.filter fun v =>
    !(TESTNET_CHAINS.contains v.chain_id) && (CHAIN_MAP v.chain_id).isSome &&
      (v.aera_version != some "v3")

/-- The chain name main derives for a vault (JavaScript indexing of
CHAIN_MAP, stringifying to "undefined" when absent — fetchVaults has
already removed that case). -/
def chainName (v : AeraVault) : String := (CHAIN_MAP v.chain_id).getD "undefined"

/-- The collaborator outcomes getVaultTvl consumes: the vault value call,
the asset-registry, numeraire and decimals calls (each may reject), and the
price-API response (may reject, or resolve without a price for the key). -/
structure AeraTvlFetch where
  value : Except String (Option ℚ)
  assetRegistry : Except String String
  numeraire : Except String String
  decimals : Except String ℕ
  price : Except String (Option ℚ)

/-- The body of getVaultTvl before its catch-all: short-circuits to 0 on a
falsy or zero vault value and on a falsy (missing or zero) price, otherwise
returns value / 10 ^ decimals * price together with the numeraire token. -/
def getVaultTvlE (f : AeraTvlFetch) : Except String (ℚ × Option String) :=
  match f.value with
  | .error e => .error e
  | .ok value =>
    if value = none ∨ value = some 0 then .ok (0, none)
    else
      match f.assetRegistry with
      | .error e => .error e
      | .ok _assetRegistry =>
        match f.numeraire with
        | .error e => .error e
        | .ok numeraireToken =>
          match f.decimals with
          | .error e => .error e
          | .ok d =>
            match f.price with
            | .error e => .error e
            | .ok price =>
              if price = none ∨ price = some 0 then
                .ok (0, some numeraireToken)
              else
                .ok (value.getD 0 / 10 ^ d * price.getD 0, some numeraireToken)

/-- getVaultTvl: the body above wrapped in its catch, which converts any
collaborator rejection into tvlUsd = 0. -/
def getVaultTvl (f : AeraTvlFetch) : ℚ × Option String :=
  match getVaultTvlE f with
  | .ok r => r
  | .error _ => (0, none)

/-- getVaultMetrics: a rejected metrics request, a missing summary, or a
null apy value all yield null; otherwise the decimal APY is scaled to a
percentage. -/
def getVaultMetrics (res : Except String (Option (Option ℚ))) : Option ℚ :=
  match res with
  | .error _ => none
  | .ok none => none
  | .ok (some none) => none
  | .ok (some (some v)) => some (v * 100)

/-- All collaborator outcomes of one vault's Promise.all in main:
the TVL fetch chain, the (internally caught, hence total) symbol and
underlying-token results, and the metrics response. -/
structure AeraVaultOutcome where
  tvlFetch : AeraTvlFetch
  symbolResult : String
  underlying : List String
  metrics : Except String (Option (Option ℚ))

/-- The canonical pool record built by the aera-v2 main. -/
structure AeraPool where
  pool : String
  chain : String
  project : String
  symbol : String
  tvlUsd : ℚ
  apyBase : ℚ
  underlyingTokens : Option (List String)
  poolMeta : Option String
  url : String
  deriving DecidableEq, Repr

/-- JavaScript String.prototype.replace with a string pattern replaces the
first occurrence only; this is the underscore-to-space replacement applied
to vault_type. -/
def replaceFirstUnderscore : List Char → List Char
  | [] => []
  | c :: cs => if c = '_' then ' ' :: cs else c :: replaceFirstUnderscore cs

/-- poolMeta: vault.vault_type ? vault_type.replace of one underscore by a
space : undefined (the empty string is falsy in JavaScript). -/
def aeraPoolMeta (v : AeraVault) : Option String :=
  match v.vault_type with
  | some s => if s = "" then none else some ⟨replaceFirstUnderscore s.data⟩
  | none => none

/-- The per-vault loop body of main: skip the vault when tvlUsd <= 0, else
build its pool record. -/
def processVault (v : AeraVault) (o : AeraVaultOutcome) : Option AeraPool :=
  let chain := chainName v
  let tvlUsd := (getVaultTvl o.tvlFetch).1
  if tvlUsd ≤ 0 then none
  else
    some {
      pool := jsToLowerCase (v.vault_address ++ "-" ++ chain)
      chain := formatChain chain
      project := "aera-v2"
      symbol := formatSymbol o.symbolResult
      tvlUsd := tvlUsd
      apyBase := (getVaultMetrics o.metrics).getD 0
      underlyingTokens :=
        if o.underlying.length > 0 then some o.underlying else none
      poolMeta := aeraPoolMeta v
      url := "https://app.aera.finance/vaults/" ++
        (CHAIN_SLUG_MAP v.chain_id).getD chain ++ ":" ++ v.vault_address }

/-- The vaultsByChain grouping step of main: append the vault to its
chain's entry, creating the entry at the end on first sight of the chain. -/
def insertGrouped (key : String) (v : AeraVault) :
    List (String × List AeraVault) → List (String × List AeraVault)
  | [] => [(key, [v])]
  | (k, vs) :: rest =>
    if k = key then (k, vs ++ [v]) :: rest
    else (k, vs) :: insertGrouped key v rest

/-- vaultsByChain: fold the vault list into chain groups (insertion order
of first occurrence, like Object.entries over the built object). -/
def groupByChain (vaults : List AeraVault) : List (String × List AeraVault) :=
  vaults.foldl (fun acc v => insertGrouped (chainName v) v acc) []

/-- Modelled from the spec: utils.keepFinite (not in src/) — the Record
Builder's finiteness check dropping records with a non-finite numeric
field; over the exact rational embedding every numeric field is finite, so
the check always passes. -/
def keepFinite (_p : AeraPool) : Bool := true

/-- The aera-v2 main over a fetched vault list and an oracle assigning each
vault its collaborator outcomes: filter the vault list as fetchVaults does,
group by chain, process every vault of every group, and filter the pushed
records through keepFinite. -/
def aeraMain (vaults : List AeraVault) (o : AeraVault → AeraVaultOutcome) :
    List AeraPool :=
  (((groupByChain (fetchVaultsFilter vaults)).map
      (fun g => g.2.filterMap (fun v => processVault v (o v)))).flatten).filter
    keepFinite

/-! ## usual-eur0 adapter (src/adaptors/usual-eur0/index.js) -/

/-- Source constant: the sEUR0 token address (also the pool id). -/
def SEUR0_ADDR : String := "0x35f43C6604B0DE814ABAa2D94C878BD1F5165478"

/-- Source constant: the EUR0 token address. -/
def EUR0_ADDR : String := "0x3c89Cd1884E7beF73ca3ef08d2eF6EC338fD8E49"

/-- Source constant: SCALAR = 1e18. -/
def CONFIG_SCALAR : ℚ := 10 ^ 18

/-- Source constant: WEEKS_PER_YEAR = 52. -/
def WEEKS_PER_YEAR : ℕ := 52

/-- getRewardData: reads data[pool]?.[reward] from the yields API response
and throws when the value is falsy — absent (undefined/null) or zero. -/
def getRewardData (yields : String → String → Option ℚ)
    (pool reward : String) : Except String ℚ :=
  match yields pool reward with
  | none =>
    .error ("Reward \"" ++ reward ++ "\" not found for pool \"" ++ pool ++ "\"")
  | some apr =>
    if apr = 0 then
      .error ("Reward \"" ++ reward ++ "\" not found for pool \"" ++ pool ++ "\"")
    else .ok apr

/-- The record shape returned by the usual-eur0 apy. -/
structure UsualPool where
  pool : String
  chain : String
  project : String
  symbol : String
  tvlUsd : ℚ
  apyBase : ℚ
  apyReward : ℚ
  rewardTokens : List String
  poolMeta : Option String
  underlyingTokens : List String
  url : String
  deriving DecidableEq, Repr

/-- The usual-eur0 apy entry point: getRewardData is awaited first, so its
rejection rejects the whole invocation; otherwise the APR is compounded
weekly and the single sEUR0 record is returned. -/
def usualEur0Apy (yields : String → String → Option ℚ)
    (supplyOutput price : ℚ) : Except String (List UsualPool) :=
  match getRewardData yields "sEUR0" "EUR0" with
  | .error e => .error e
  | .ok apr =>
    .ok [{
      pool := SEUR0_ADDR
      chain := "Ethereum"
      project := "usual-eur0"
      symbol := "sEUR0"
      tvlUsd := supplyOutput / CONFIG_SCALAR * price
      apyBase := aprToApy apr WEEKS_PER_YEAR
      apyReward := 0
      rewardTokens := [EUR0_ADDR]
      poolMeta := some "EUR0 Savings"
      underlyingTokens := [EUR0_ADDR]
      url := "https://app.usual.money/swap?action=stake&from=EUR0&to=sEUR0" }]

/-! ## Concrete fixtures used by witnesses and counterexamples -/

/-- A mainnet vault on ethereum. -/
def aeraVaultA : AeraVault :=
  { vault_address := "0xAa", chain_id := 1, aera_version := some "v2",
    vault_type := some "treasury_vault" }

/-- A successful TVL fetch chain: value 1000000, decimals 6, price 1. -/
def aeraTvlFetchGood : AeraTvlFetch :=
  { value := .ok (some 1000000), assetRegistry := .ok "0xReg",
    numeraire := .ok "0xNum", decimals := .ok 6, price := .ok (some 1) }

/-- A TVL fetch chain whose first contract read rejected. -/
def aeraTvlFetchErr : AeraTvlFetch :=
  { value := .error "rpc unreachable", assetRegistry := .ok "0xReg",
    numeraire := .ok "0xNum", decimals := .ok 6, price := .ok (some 1) }

/-- A TVL fetch chain whose price lookup resolved without a price. -/
def aeraTvlFetchNoPrice : AeraTvlFetch :=
  { value := .ok (some 1000000), assetRegistry := .ok "0xReg",
    numeraire := .ok "0xNum", decimals := .ok 6, price := .ok none }

/-- Outcomes of a vault whose whole fetch chain failed. -/
def aeraOutcomeErr : AeraVaultOutcome :=
  { tvlFetch := aeraTvlFetchErr, symbolResult := "MULTI", underlying := [],
    metrics := .error "metrics unreachable" }

/-- Outcomes of a fully healthy vault. -/
def aeraOutcomeGood : AeraVaultOutcome :=
  { tvlFetch := aeraTvlFetchGood, symbolResult := "USDC",
    underlying := ["0xUsdc"], metrics := .ok (some (some (332 / 10000))) }

/-- Outcomes of a vault with healthy TVL but an unreachable metrics API. -/
def aeraOutcomeMetricsErr : AeraVaultOutcome :=
  { tvlFetch := aeraTvlFetchGood, symbolResult := "USDC",
    underlying := ["0xUsdc"], metrics := .error "metrics unreachable" }

/-- Outcomes of a vault with an unresolvable numeraire price. -/
def aeraOutcomeNoPrice : AeraVaultOutcome :=
  { tvlFetch := aeraTvlFetchNoPrice, symbolResult := "USDC",
    underlying := ["0xUsdc"], metrics := .ok none }

/-- kinetiq inputs whose sKNTQ fetch chain rejected while everything the
sibling kHYPE pool needs is healthy. -/
def kinetiqInputsSkErr : KinetiqInputs :=
  { kntqPrice := some (.fin 1), hypePrice := some (.fin 1),
    block1d := some 100, block7d := some 50,
    skntqCalls := .error "rpc down",
    khypeCalls := .ok (1, 1, 1, 1) }

/-- kinetiq inputs where every upstream fetch succeeded. -/
def kinetiqInputsOk : KinetiqInputs :=
  { kntqPrice := some (.fin 2), hypePrice := some (.fin 3),
    block1d := some 100, block7d := some 50,
    skntqCalls := .ok (2, 1, 1, 5),
    khypeCalls := .ok (4, 2, 1, 6) }

/-- A mainnet vault on base with no vault_type. -/
def aeraVaultB : AeraVault :=
  { vault_address := "0xBb", chain_id := 8453, aera_version := none,
    vault_type := none }

/-- gaib inputs whose price map resolves no price at all. -/
noncomputable def gaibInputsNoPrice : GaibInputs :=
  { totalAssetsNow := 5000000, totalSupplyNow := 0, totalAssets30d := 0,
    totalSupply30d := 0, assetDecimals := 6, prices := fun _ => none }

/-- The record processVault builds for aeraVaultA under aeraOutcomeGood. -/
def aeraPoolGood : AeraPool :=
  { pool := "0xaa-ethereum", chain := "Ethereum", project := "aera-v2",
    symbol := "USDC", tvlUsd := 1, apyBase := 332 / 100,
    underlyingTokens := some ["0xUsdc"], poolMeta := some "treasury vault",
    url := "https://app.aera.finance/vaults/eth:0xAa" }

/-- The sKNTQ record kinetiqApy builds from kinetiqInputsOk (calls
(2, 1, 1, 5) at KNTQ price 2: apyBase 36500, apyBase7d 36500/7, tvlUsd
1/10^17). -/
def skntqPoolOk : KinetiqPool :=
  { pool := skntq ++ "-" ++ kinetiqChain, chain := kinetiqChain,
    project := kinetiqProject, symbol := "sKNTQ", underlyingTokens := [kntq],
    searchTokenOverride := skntq, apyBase := .fin (kinetiqApyBase 2 1),
    apyBase7d := .fin (kinetiqApyBase7d 2 1),
    tvlUsd := .fin (5 / 10 ^ 18 * 2),
    url := "https://kinetiq.xyz/kntq" }

/-- The kHYPE record kinetiqApy builds from kinetiqInputsOk (calls
(4, 2, 1, 6) at HYPE price 3: apyBase 36500, apyBase7d 109500/7, tvlUsd
72/10^36). -/
def khypePoolOk : KinetiqPool :=
  { pool := khype ++ "-" ++ kinetiqChain, chain := kinetiqChain,
    project := kinetiqProject, symbol := "kHYPE", underlyingTokens := [whype],
    searchTokenOverride := khype, apyBase := .fin (kinetiqApyBase 4 2),
    apyBase7d := .fin (kinetiqApyBase7d 4 1),
    tvlUsd := .fin (6 / 10 ^ 18 * 4 / 10 ^ 18 * 3),
    url := "https://kinetiq.xyz/stake-hype" }

/-- Modelled from the spec: the TVL Assembler contract of section 4.5 —
the USD TVL assembled from (rawBalance, decimals, priceUsd) triples is the
sum of rawBalance / 10 ^ decimals * priceUsd. -/
def tvlAssembled (ts : List (ℚ × ℕ × ℚ)) : ℚ :=
  (ts.map (fun t => t.1 / 10 ^ t.2.1 * t.2.2)).sum

/-! ## Claim C1: linear annualization formula -/

/-- C1: for same-unit rate observations (now, past) with past ≠ 0, the
1-day linear annualizer gives ((now-past)/past) * (365/1) * 100 and the
7-day one gives ((now-past)/past) * (365/7) * 100; concretely a rate moving
from 1.000000 to 1.000192 over 1 day annualizes to 7.008, which is within
0.01 of 7.01 percent. -/
theorem claim_C1_linear_annualizer :
    (∀ now past : ℚ, past ≠ 0 →
      kinetiqApyBase now past = (now - past) / past * (365 / 1) * 100 ∧
      kinetiqApyBase7d now past = (now - past) / past * (365 / 7) * 100) ∧
    kinetiqApyBase (1000192 / 1000000) 1 = 7008 / 1000 ∧
    |kinetiqApyBase (1000192 / 1000000) 1 - 701 / 100| < 1 / 100 := by
  refine ⟨fun now past h => ⟨?_, ?_⟩, by norm_num [kinetiqApyBase], by
    rw [show |kinetiqApyBase (1000192 / 1000000) 1 - 701 / 100| = 2 / 1000 by
      norm_num [kinetiqApyBase, abs]]
    norm_num⟩
  · simp only [kinetiqApyBase, if_neg h]
    ring
  · simp only [kinetiqApyBase7d, if_neg h]
    ring

/-- C1 witness: the general part of the claim instantiated at the concrete
observation pair (1.000192, 1). -/
theorem claim_C1_witness :
    kinetiqApyBase (1000192 / 1000000) 1 =
      ((1000192 / 1000000 : ℚ) - 1) / 1 * (365 / 1) * 100 ∧
    kinetiqApyBase7d (1000192 / 1000000) 1 =
      ((1000192 / 1000000 : ℚ) - 1) / 1 * (365 / 7) * 100 :=
  claim_C1_linear_annualizer.1 (1000192 / 1000000) 1 (by norm_num)

/-! ## Claim C4: the finiteness filter -/

/-- C4 counterexample: a record whose apyBase7d is Infinity, with finite
positive tvlUsd and finite apyBase, passes the part_001 output filter —
so a record with a non-finite numeric field is NOT always dropped. -/
theorem claim_C4_counterexample :
    kinetiqKeep {
      pool := skntq ++ "-" ++ kinetiqChain, chain := kinetiqChain,
      project := kinetiqProject, symbol := "sKNTQ",
      underlyingTokens := [kntq], searchTokenOverride := skntq,
      apyBase := .fin 3, apyBase7d := .inf, tvlUsd := .fin 5,
      url := "https://kinetiq.xyz/kntq" } = true ∧
    JSNum.isFinite .inf = false := by
  decide

/-- C4 amended: the part_001 output filter guarantees, for every kept
record, that apyBase is finite, tvlUsd is finite, and tvlUsd > 0; the
apyBase7d field is not checked by the filter. -/
theorem claim_C4_filter_guarantees (p : KinetiqPool)
    (h : kinetiqKeep p = true) :
    p.apyBase.isFinite = true ∧ p.tvlUsd.isFinite = true ∧
      p.tvlUsd.gtZero = true := by
  simp only [kinetiqKeep, Bool.and_eq_true] at h
  exact ⟨h.1.2, h.2, h.1.1⟩

/-- C4 witness: the amended filter guarantee at a concrete kept record. -/
theorem claim_C4_witness :
    (JSNum.fin 2).isFinite = true ∧ (JSNum.fin 7).isFinite = true ∧
      (JSNum.fin 7).gtZero = true :=
  claim_C4_filter_guarantees {
    pool := "p", chain := "c", project := "pr", symbol := "s",
    underlyingTokens := [], searchTokenOverride := "t",
    apyBase := .fin 2, apyBase7d := .fin 3, tvlUsd := .fin 7, url := "u" }
    (by decide)

/-! ## Claim C2: exponential annualization -/

/-- C2 counterexample: over a 30-day window with the rate doubling
(navNow = 2, nav30d = 1), the gaib exponential annualizer does not return
((1+f)^(365/n) - 1) * 100 with f = 1 and n = 30: the code's exponent is
365.25/30, not 365/30, and the two results differ. -/
theorem claim_C2_counterexample :
    gaibApyBase 2 1 ≠ ((1 + 1 : ℝ) ^ ((365 : ℝ) / 30) - 1) * 100 := by
  have h1 : gaibApyBase 2 1 = ((2 : ℝ) ^ ((365.25 : ℝ) / 30) - 1) * 100 := by
    simp only [gaibApyBase, APY_LOOKBACK_DAYS]
    norm_num
  have h2 : (2 : ℝ) ^ ((365 : ℝ) / 30) < (2 : ℝ) ^ ((365.25 : ℝ) / 30) := by
    rw [Real.rpow_lt_rpow_left_iff one_lt_two]
    norm_num
  rw [h1, show (1 + 1 : ℝ) = 2 by norm_num]
  intro h
  nlinarith [h2]

/-- C2 amended: for a synthetic rate whose NAV grew by the factor 1 + f
over the code's 30-day lookback window (with positive past NAV), the gaib
exponential annualizer returns ((1+f) ^ (365.25/30) - 1) * 100 — exponent
365.25 / n, not 365 / n — and it returns 0 when f = 0. -/
theorem claim_C2_exponential_annualizer :
    (∀ c f : ℝ, 0 < c → 0 < 1 + f →
      gaibApyBase (c * (1 + f)) c =
        ((1 + f) ^ ((365.25 : ℝ) / 30) - 1) * 100) ∧
    (∀ c : ℝ, 0 < c → gaibApyBase c c = 0) := by
  constructor
  · intro c f hc hf
    have hpos : 0 < c * (1 + f) := mul_pos hc hf
    simp only [gaibApyBase, APY_LOOKBACK_DAYS, if_pos (And.intro hpos hc)]
    rw [mul_div_cancel_left₀ _ hc.ne']
  · intro c hc
    simp only [gaibApyBase, APY_LOOKBACK_DAYS, if_pos (And.intro hc hc),
      div_self hc.ne', Real.one_rpow]
    norm_num

/-- C2 witness: the amended claim at c = 1, f = 1 and at c = 1, f = 0. -/
theorem claim_C2_witness :
    gaibApyBase (1 * (1 + 1)) 1 =
      ((1 + 1 : ℝ) ^ ((365.25 : ℝ) / 30) - 1) * 100 ∧
    gaibApyBase 1 1 = 0 :=
  ⟨claim_C2_exponential_annualizer.1 1 1 (by norm_num) (by norm_num),
   claim_C2_exponential_annualizer.2 1 (by norm_num)⟩

/-! ## Claim C3: zero-denominator safety -/

/-- C3: annualizing with past = 0 returns exactly 0 — in the 1-day linear
window, the 7-day linear window, and the NAV-based exponential
annualization — for any now observation. -/
theorem claim_C3_zero_past_returns_zero :
    (∀ now : ℚ, kinetiqApyBase now 0 = 0) ∧
    (∀ now : ℚ, kinetiqApyBase7d now 0 = 0) ∧
    (∀ navNow : ℝ, gaibApyBase navNow 0 = 0) := by
  refine ⟨fun now => ?_, fun now => ?_, fun navNow => ?_⟩
  · simp [kinetiqApyBase]
  · simp [kinetiqApyBase7d]
  · simp [gaibApyBase]

/-! ## Claim C5: per-pool failure isolation -/

/-- Membership through one insertGrouped step. -/
theorem mem_snd_flatten_insertGrouped (x : AeraVault) (k : String)
    (v : AeraVault) (g : List (String × List AeraVault)) :
    x ∈ ((insertGrouped k v g).map Prod.snd).flatten ↔
      x = v ∨ x ∈ (g.map Prod.snd).flatten := by
  induction g with
  | nil => simp [insertGrouped]
  | cons hd tl ih =>
    obtain ⟨hk, hvs⟩ := hd
    by_cases h : hk = k
    · simp only [insertGrouped, if_pos h, List.map_cons, List.flatten_cons,
        List.mem_append, List.mem_singleton]
      tauto
    · simp only [insertGrouped, if_neg h, List.map_cons, List.flatten_cons,
        List.mem_append, ih]
      tauto

/-- Membership through the grouping fold. -/
theorem mem_groupByChain_aux (L : List AeraVault)
    (acc : List (String × List AeraVault)) (x : AeraVault) :
    x ∈ ((L.foldl (fun a v => insertGrouped (chainName v) v a) acc).map
        Prod.snd).flatten ↔
      x ∈ (acc.map Prod.snd).flatten ∨ x ∈ L := by
  induction L generalizing acc with
  | nil => simp
  | cons hd tl ih =>
    simp only [List.foldl_cons, ih, mem_snd_flatten_insertGrouped,
      List.mem_cons]
    tauto

/-- Grouping by chain preserves the vault set. -/
theorem mem_groupByChain (L : List AeraVault) (x : AeraVault) :
    x ∈ ((groupByChain L).map Prod.snd).flatten ↔ x ∈ L := by
  simpa [groupByChain] using mem_groupByChain_aux L [] x

/-- The aera-v2 output is characterized vault by vault: a record is
emitted exactly when some kept vault's own outcomes produce it. -/
theorem mem_aeraMain (L : List AeraVault) (o : AeraVault → AeraVaultOutcome)
    (p : AeraPool) :
    p ∈ aeraMain L o ↔
      ∃ v ∈ fetchVaultsFilter L, processVault v (o v) = some p := by
  have hkf : ∀ l : List AeraPool, l.filter keepFinite = l := fun l =>
    List.filter_eq_self.mpr (fun a _ => rfl)
  rw [aeraMain, hkf]
  constructor
  · intro hp
    obtain ⟨l, hl, hpl⟩ := List.mem_flatten.mp hp
    obtain ⟨g, hg, rfl⟩ := List.mem_map.mp hl
    obtain ⟨v, hv, hsome⟩ := List.mem_filterMap.mp hpl
    refine ⟨v, ?_, hsome⟩
    exact (mem_groupByChain _ v).mp
      (List.mem_flatten.mpr ⟨g.2, List.mem_map.mpr ⟨g, hg, rfl⟩, hv⟩)
  · rintro ⟨v, hv, hsome⟩
    obtain ⟨l, hl, hvl⟩ := List.mem_flatten.mp ((mem_groupByChain _ v).mpr hv)
    obtain ⟨g, hg, rfl⟩ := List.mem_map.mp hl
    exact List.mem_flatten.mpr
      ⟨g.2.filterMap (fun w => processVault w (o w)),
        List.mem_map.mpr ⟨g, hg, rfl⟩,
        List.mem_filterMap.mpr ⟨v, hvl, hsome⟩⟩

/-- C5 counterexample: with kinetiq inputs where the sKNTQ fetch chain
rejected while every input the sibling kHYPE pool needs is healthy, the
kinetiq apy() rejects outright — the failure is not converted into
excluding the failing pool only, and the sibling pool is not emitted. -/
theorem claim_C5_counterexample :
    kinetiqApy kinetiqInputsSkErr = Except.error "rpc down" := by decide

/-- C5 amended: in aera-v2, a vault whose fetch chain fails contributes no
record and the output is characterized vault by vault, so sibling vaults
are unaffected; in the kinetiq adapter, by contrast, a rejection of the
sKNTQ fetch chain rejects the entire apy() invocation and no pool list is
produced. -/
theorem claim_C5_per_pool_isolation :
    (∀ (L : List AeraVault) (o : AeraVault → AeraVaultOutcome)
       (v : AeraVault) (e : String),
      (o v).tvlFetch.value = Except.error e →
        processVault v (o v) = none ∧
        ∀ p : AeraPool, p ∈ aeraMain L o ↔
          ∃ w ∈ fetchVaultsFilter L, processVault w (o w) = some p) ∧
    (∀ (i : KinetiqInputs) (e : String), i.skntqCalls = Except.error e →
      ∀ pools : List KinetiqPool, kinetiqApy i ≠ Except.ok pools) := by
  constructor
  · intro L o v e hv
    refine ⟨?_, fun p => mem_aeraMain L o p⟩
    simp [processVault, getVaultTvl, getVaultTvlE, hv]
  · intro i e hsk pools hok
    obtain ⟨kp, hpr, b1, b7, sk, kh⟩ := i
    replace hsk : sk = Except.error e := hsk
    subst hsk
    cases kp with
    | none => simp [kinetiqApy] at hok
    | some jn =>
      cases jn with
      | fin q =>
        cases hpr with
        | none => simp [kinetiqApy] at hok
        | some jm =>
          cases jm with
          | fin r =>
            by_cases hb : b1 = none ∨ b7 = none
            · simp [kinetiqApy, hb] at hok
            · simp [kinetiqApy, hb, getSkntqPool] at hok
          | nan => simp [kinetiqApy] at hok
          | inf => simp [kinetiqApy] at hok
          | neginf => simp [kinetiqApy] at hok
      | nan => simp [kinetiqApy] at hok
      | inf => simp [kinetiqApy] at hok
      | neginf => simp [kinetiqApy] at hok

/-- C5 witness: the amended claim at a one-vault aera run whose fetch
chain rejected, and at the kinetiq inputs with a rejected sKNTQ chain. -/
theorem claim_C5_witness :
    processVault aeraVaultA aeraOutcomeErr = none ∧
    kinetiqApy kinetiqInputsSkErr ≠ Except.ok [] :=
  ⟨(claim_C5_per_pool_isolation.1 [aeraVaultA] (fun _ => aeraOutcomeErr)
      aeraVaultA "rpc unreachable" rfl).1,
   claim_C5_per_pool_isolation.2 kinetiqInputsSkErr "rpc down" rfl []⟩

/-! ## Claim C6: missing price resolves TVL to 0 and drops the pool -/

/-- C6: with no resolvable price for the sole underlying asset, the aera
getVaultTvl resolves to 0 and the vault is excluded by main; the gaib
adapter, however, resolves its tvlUsd to 0 (price defaulted to 0) but still
emits the sAID record — the pool is not excluded from its output array. -/
theorem claim_C6_missing_price_emitted :
    (gaibPoolsFunction gaibInputsNoPrice).map (fun p => p.tvlUsd) = [0] ∧
    (gaibPoolsFunction gaibInputsNoPrice).map (fun p => p.pool) =
      ["0xb3b3c527ba57cd61648e2ec2f5e006a0b390a9f8-ethereum"] ∧
    getVaultTvl aeraTvlFetchNoPrice = (0, some "0xNum") ∧
    processVault aeraVaultA aeraOutcomeNoPrice = none := by
  refine ⟨?_, ?_, by decide, by decide⟩
  · simp [gaibPoolsFunction, gaibInputsNoPrice]
  · simp only [gaibPoolsFunction, List.map_cons, List.map_nil,
      List.cons.injEq, and_true]
    decide

/-! ## Claim C7: unavailable yield metric -/

/-- C7 counterexample: a vault with healthy TVL but an unreachable metrics
endpoint is emitted by aera-v2 with apyBase = 0 — it is not excluded from
the output as the claim states. -/
theorem claim_C7_counterexample :
    (processVault aeraVaultA aeraOutcomeMetricsErr).isSome = true ∧
    (processVault aeraVaultA aeraOutcomeMetricsErr).map (fun p => p.apyBase)
      = some 0 := by
  have htvl : getVaultTvl aeraOutcomeMetricsErr.tvlFetch = (1, some "0xNum") := by
    rw [show getVaultTvl aeraOutcomeMetricsErr.tvlFetch =
      (1000000 / 10 ^ 6 * 1, some "0xNum") from rfl]
    norm_num
  simp only [processVault, htvl]
  rw [if_neg (by norm_num : ¬((1 : ℚ) ≤ 0))]
  exact ⟨rfl, rfl⟩

/-- C7 amended: when the yield metric cannot be obtained (getVaultMetrics
resolves to null) and the vault's TVL is positive, aera-v2 emits the pool
with apyBase defaulted to 0 rather than excluding it. -/
theorem claim_C7_metrics_unavailable_emits_zero (v : AeraVault)
    (o : AeraVaultOutcome) (hm : getVaultMetrics o.metrics = none)
    (ht : 0 < (getVaultTvl o.tvlFetch).1) :
    (processVault v o).isSome = true ∧
    (processVault v o).map (fun p => p.apyBase) = some 0 := by
  simp only [processVault]
  rw [if_neg (not_le.mpr ht)]
  refine ⟨rfl, ?_⟩
  simp [hm]

/-- C7 witness: the amended claim at a concrete vault with failed metrics
and healthy TVL. -/
theorem claim_C7_witness :
    (processVault aeraVaultB aeraOutcomeMetricsErr).isSome = true ∧
    (processVault aeraVaultB aeraOutcomeMetricsErr).map (fun p => p.apyBase)
      = some 0 :=
  claim_C7_metrics_unavailable_emits_zero aeraVaultB aeraOutcomeMetricsErr
    rfl (by
      rw [show getVaultTvl aeraOutcomeMetricsErr.tvlFetch =
        (1000000 / 10 ^ 6 * 1, some "0xNum") from rfl]
      norm_num)

/-! ## Claim C8: TVL assembly -/

/-- C8: when the whole aera TVL fetch chain succeeds with a non-zero value
and a resolved non-zero price, getVaultTvl returns exactly the spec's
assembled sum for the single (rawBalance, decimals, priceUsd) triple; the
gaib tvlUsd is likewise rawBalance / 10 ^ decimals times the resolved
price; and the assembled TVL of (1000000, 6, 1.00) is 1.0. -/
theorem claim_C8_tvl_assembly :
    (∀ (f : AeraTvlFetch) (val : ℚ) (reg num : String) (d : ℕ) (pr : ℚ),
      f.value = Except.ok (some val) → val ≠ 0 →
      f.assetRegistry = Except.ok reg → f.numeraire = Except.ok num →
      f.decimals = Except.ok d → f.price = Except.ok (some pr) → pr ≠ 0 →
      getVaultTvl f = (tvlAssembled [(val, d, pr)], some num)) ∧
    (∀ i : GaibInputs,
      (gaibPoolsFunction i).map (fun p => p.tvlUsd) =
        [i.totalAssetsNow / 10 ^ i.assetDecimals *
          ((i.prices (jsToLowerCase AID_TOKEN)).getD 0)]) ∧
    tvlAssembled [(1000000, 6, 1)] = 1 := by
  refine ⟨?_, ?_, by norm_num [tvlAssembled]⟩
  · intro f val reg num d pr hv hval hr hn hd hp hpr
    simp [getVaultTvl, getVaultTvlE, hv, hval, hr, hn, hd, hp, hpr,
      tvlAssembled]
  · intro i
    simp [gaibPoolsFunction]

/-- C8 witness: the aera TVL formula at rawBalance 1000000, decimals 6,
price 1. -/
theorem claim_C8_witness :
    getVaultTvl aeraTvlFetchGood =
      (tvlAssembled [(1000000, 6, 1)], some "0xNum") :=
  claim_C8_tvl_assembly.1 aeraTvlFetchGood 1000000 "0xReg" "0xNum" 6 1 rfl
    (by norm_num) rfl rfl rfl rfl (by norm_num)

/-! ## Claim C9: pool-id stability -/

/-- C9: the aera-v2 pool id of an emitted record is determined by the
vault's address and chain alone (two runs with any collaborator outcomes
agree on it, and it equals the lower-cased address-chain string), and
every record the kinetiq adapter emits carries one of its two fixed
address-chain pool ids. -/
theorem claim_C9_poolid_stability :
    (∀ (v : AeraVault) (o₁ o₂ : AeraVaultOutcome) (p₁ p₂ : AeraPool),
      processVault v o₁ = some p₁ → processVault v o₂ = some p₂ →
      p₁.pool = p₂.pool ∧
        p₁.pool = jsToLowerCase (v.vault_address ++ "-" ++ chainName v)) ∧
    (∀ (i : KinetiqInputs) (pools : List KinetiqPool) (p : KinetiqPool),
      kinetiqApy i = Except.ok pools → p ∈ pools →
      p.pool = skntq ++ "-" ++ kinetiqChain ∨
        p.pool = khype ++ "-" ++ kinetiqChain) := by
  have key : ∀ (v : AeraVault) (o : AeraVaultOutcome) (p : AeraPool),
      processVault v o = some p →
      p.pool = jsToLowerCase (v.vault_address ++ "-" ++ chainName v) := by
    intro v o p h
    simp only [processVault] at h
    split at h
    next => exact absurd h (by simp)
    next =>
      rw [Option.some_inj] at h
      subst h
      rfl
  constructor
  · intro v o₁ o₂ p₁ p₂ h₁ h₂
    exact ⟨(key v o₁ p₁ h₁).trans (key v o₂ p₂ h₂).symm, key v o₁ p₁ h₁⟩
  · intro i pools p hok hp
    obtain ⟨kp, hpr, b1, b7, sk, kh⟩ := i
    cases kp with
    | none => simp [kinetiqApy] at hok
    | some jn =>
      cases jn with
      | fin q =>
        cases hpr with
        | none => simp [kinetiqApy] at hok
        | some jm =>
          cases jm with
          | fin r =>
            by_cases hb : b1 = none ∨ b7 = none
            · simp [kinetiqApy, hb] at hok
            · cases sk with
              | error e => simp [kinetiqApy, hb, getSkntqPool] at hok
              | ok t =>
                obtain ⟨r1, r2, r3, r4⟩ := t
                cases kh with
                | error e =>
                  simp [kinetiqApy, hb, getSkntqPool, getKhypePool] at hok
                | ok u =>
                  obtain ⟨s1, s2, s3, s4⟩ := u
                  simp only [kinetiqApy, hb, if_false, if_neg,
                    getSkntqPool, getKhypePool, Except.ok.injEq] at hok
                  subst hok
                  have hmem := (List.mem_filter.mp hp).1
                  rcases List.mem_cons.mp hmem with h | h
                  · subst h
                    left
                    rfl
                  · rcases List.mem_cons.mp h with h2 | h2
                    · subst h2
                      right
                      rfl
                    · exact absurd h2 (by simp)
          | nan => simp [kinetiqApy] at hok
          | inf => simp [kinetiqApy] at hok
          | neginf => simp [kinetiqApy] at hok
      | nan => simp [kinetiqApy] at hok
      | inf => simp [kinetiqApy] at hok
      | neginf => simp [kinetiqApy] at hok

/-- C9 witness: the pool-id facts at a concrete aera vault processed under
two (identical) outcome oracles, and at the concrete kinetiq run. -/
theorem claim_C9_witness :
    (aeraPoolGood.pool = aeraPoolGood.pool ∧
      aeraPoolGood.pool =
        jsToLowerCase (aeraVaultA.vault_address ++ "-" ++
          chainName aeraVaultA)) ∧
    (skntqPoolOk.pool = skntq ++ "-" ++ kinetiqChain ∨
      skntqPoolOk.pool = khype ++ "-" ++ kinetiqChain) := by
  have h1 : processVault aeraVaultA aeraOutcomeGood = some aeraPoolGood := by
    have htvl : getVaultTvl aeraOutcomeGood.tvlFetch = (1, some "0xNum") := by
      rw [show getVaultTvl aeraOutcomeGood.tvlFetch =
        (1000000 / 10 ^ 6 * 1, some "0xNum") from rfl]
      norm_num
    simp only [processVault, htvl]
    rw [if_neg (by norm_num : ¬((1 : ℚ) ≤ 0))]
    rw [Option.some_inj]
    congr 1
    all_goals first
    | decide
    | (rw [show (getVaultMetrics aeraOutcomeGood.metrics).getD 0 =
          332 / 10000 * 100 from rfl]; norm_num)
  have h2 : kinetiqApy kinetiqInputsOk =
      Except.ok [skntqPoolOk, khypePoolOk] := by
    have hkeep1 : kinetiqKeep skntqPoolOk = true := by
      simp only [kinetiqKeep, skntqPoolOk, JSNum.gtZero, JSNum.isFinite,
        Bool.and_true, decide_eq_true_eq]
      norm_num
    have hkeep2 : kinetiqKeep khypePoolOk = true := by
      simp only [kinetiqKeep, khypePoolOk, JSNum.gtZero, JSNum.isFinite,
        Bool.and_true, decide_eq_true_eq]
      norm_num
    show Except.ok ([skntqPoolOk, khypePoolOk].filter kinetiqKeep) =
      Except.ok [skntqPoolOk, khypePoolOk]
    simp [List.filter, hkeep1, hkeep2]
  exact ⟨claim_C9_poolid_stability.1 aeraVaultA aeraOutcomeGood aeraOutcomeGood
      aeraPoolGood aeraPoolGood h1 h1,
    claim_C9_poolid_stability.2 kinetiqInputsOk [skntqPoolOk, khypePoolOk]
      skntqPoolOk h2 (by simp)⟩

/-! ## Claim C10: falsy reward APR rejects the usual-eur0 adapter -/

/-- C10: whenever the yields API reports no APR, a null APR, or an APR of
exactly 0 for the sEUR0/EUR0 pair, getRewardData throws and the whole
usual-eur0 apy() invocation rejects with that error — no records are
emitted. -/
theorem claim_C10_falsy_reward_rejects
    (yields : String → String → Option ℚ) (supplyOutput price : ℚ)
    (h : yields "sEUR0" "EUR0" = none ∨ yields "sEUR0" "EUR0" = some 0) :
    getRewardData yields "sEUR0" "EUR0" =
      Except.error ("Reward \"EUR0\" not found for pool \"sEUR0\"") ∧
    usualEur0Apy yields supplyOutput price =
      Except.error ("Reward \"EUR0\" not found for pool \"sEUR0\"") := by
  have hg : getRewardData yields "sEUR0" "EUR0" =
      Except.error ("Reward \"EUR0\" not found for pool \"sEUR0\"") := by
    rcases h with h | h <;> simp [getRewardData, h]
  exact ⟨hg, by simp [usualEur0Apy, hg]⟩

/-- C10 witness: the claim at a yields response carrying no sEUR0 entry. -/
theorem claim_C10_witness :
    getRewardData (fun _ _ => none) "sEUR0" "EUR0" =
      Except.error ("Reward \"EUR0\" not found for pool \"sEUR0\"") ∧
    usualEur0Apy (fun _ _ => none) 0 0 =
      Except.error ("Reward \"EUR0\" not found for pool \"sEUR0\"") :=
  claim_C10_falsy_reward_rejects (fun _ _ => none) 0 0 (Or.inl rfl)
